import Mathlib

/-!
Shallow embedding of the cricket_chatbot repository (src/main.py and
src/backend.py) and proofs about its match-intent resolution, context
assembly, API error handling, streaming accumulation and persistence
behaviour.

Modelling conventions:
* Python dict fields that may be absent (or null) are `Option` fields;
  `dict.get(k, d)` becomes `Option.getD`.
* Python truthiness of optional strings, lists and dicts is made explicit
  through the `truthy...` helpers below.
* Side effects visible in the UI (`st.error`, `st.warning`, `st.write`) are
  collected in an explicit `Effect` list; renders of the streaming response
  area are collected in a separate list of strings, in order.
* `str.lower()` and the regex digit class are modelled over ASCII, which is
  the alphabet exercised by every string constant of the program.
-/

set_option maxRecDepth 4096

namespace CricketBot

/-- A side effect emitted through the Streamlit API while a turn runs:
`error` models `st.error`, `warning` models `st.warning`, `write` models the
debug `st.write` calls of main.py. -/
inductive Effect : Type where
  | error (msg : String)
  | warning (msg : String)
  | write (msg : String)
deriving Repr, DecidableEq

/-- One element of `st.session_state.current_match_data`: a match dict as
returned by the provider, reduced to the keys main.py reads (`id`, `name`,
`status`).  A missing or null key is `none`. -/
structure CMatch : Type where
  id : Option String
  name : Option String
  status : Option String
deriving Repr, DecidableEq

/-- Default element used with `List.getD`; never selected under the range
checks mirrored from main.py. -/
def dfltMatch : CMatch := ⟨none, none, none⟩

/-- One element of `st.session_state.match_list_for_llm`
(main.py lines 190-194): 1-based index, name and id with the N/A
defaults already applied. -/
structure MatchListEntry : Type where
  index : Nat
  name : String
  id : String
deriving Repr, DecidableEq

/-- One element of `st.session_state.messages`. -/
structure Msg : Type where
  role : String
  text : String
deriving Repr, DecidableEq

/-- The row payload of the `save_chat` insert of backend.py into the
chat_history table. -/
structure ChatRecord : Type where
  username : String
  question : String
  answer : String
deriving Repr, DecidableEq

/-- backend.py `save_chat`: builds the `{username, question, answer}` row
inserted into the `chat_history` table.  Note that main.py never imports
backend.py nor calls this function. -/
def save_chat (username question answer : String) : ChatRecord :=
  ⟨username, question, answer⟩

/-- The parsed JSON object returned by the structured intent call
(`{"match_number": n}`, `{"match_name": s}` or `{}`); a field is `none`
exactly when the corresponding key is absent. -/
structure IntentDict : Type where
  match_number : Option Int
  match_name : Option String
deriving Repr, DecidableEq

/-- Python truthiness of `selected_match_id` (a string or None): truthy iff
present and non-empty. -/
def truthyOptStr : Option String → Bool
  | none => false
  | some s => s ≠ ""

/-- Python truthiness of `st.session_state.current_match_data`: `None` and
the empty list are falsy. -/
def truthyMatchData : Option (List CMatch) → Bool
  | none => false
  | some l => !l.isEmpty

/-- Python rendering of an optional string inside an f-string
(`None` when absent). -/
def pyShowOpt : Option String → String
  | none => "None"
  | some s => s

/-- Python or-fallback of an optional string to N/A
(main.py line 273). -/
def orNA : Option String → String
  | none => "N/A"
  | some s => if s = "" then "N/A" else s

/-- ASCII model of Python `str.lower` on a single character. -/
def lowerChar (c : Char) : Char :=
  if 'A' ≤ c && c ≤ 'Z' then Char.ofNat (c.toNat + 32) else c

/-- ASCII model of Python `str.lower`. -/
def pyLower (s : String) : String :=
  String.mk (s.data.map lowerChar)

/-- The name-lookup loop of main.py lines 255-260: first match whose
`name` (defaulted to the empty string) equals the query
case-insensitively. -/
def findByName (s : String) : List CMatch → Option CMatch
  | [] => none
  | m :: rest =>
    if pyLower (m.name.getD "") = pyLower s then some m else findByName s rest

/-- Result of the intent-resolution block of main.py lines 244-264:
the values of `selected_match_id` and `selected_match_name` afterwards,
plus the effects (debug writes and warnings) it emitted, in order. -/
structure ResolveResult : Type where
  selected_match_id : Option String
  selected_match_name : Option String
  effects : List Effect
deriving Repr, DecidableEq

/-- main.py lines 244-264: dispatch on `match_intent`.  A dict with a
`match_number` key takes the number branch; else a `match_name` key takes
the name branch; the empty dict is falsy and only logs a debug line. -/
def resolveIntent (matchData : List CMatch) (mi : IntentDict) : ResolveResult :=
  match mi.match_number with
  | some n =>
    let idx : Int := n - 1
    if 0 ≤ idx ∧ idx < (matchData.length : Int) then
      let m := matchData.getD idx.toNat dfltMatch
      ⟨m.id, m.name,
        [Effect.write ("DEBUG: Identified match by number: " ++ pyShowOpt m.name
          ++ " (ID: " ++ pyShowOpt m.id ++ ")")]⟩
    else
      ⟨none, none,
        [Effect.warning ("Match number " ++ toString n ++ " is out of range.")]⟩
  | none =>
    match mi.match_name with
    | some s =>
      match findByName s matchData with
      | some m =>
        if truthyOptStr m.id then
          ⟨m.id, m.name,
            [Effect.write ("DEBUG: Identified match by name: " ++ pyShowOpt m.name
              ++ " (ID: " ++ pyShowOpt m.id ++ ")")]⟩
        else
          ⟨m.id, m.name,
            [Effect.write ("DEBUG: Identified match by name: " ++ pyShowOpt m.name
              ++ " (ID: " ++ pyShowOpt m.id ++ ")"),
             Effect.warning ("Could not find match with name: " ++ s ++ ".")]⟩
      | none =>
        ⟨none, none,
          [Effect.warning ("Could not find match with name: " ++ s ++ ".")]⟩
    | none =>
      ⟨none, none, [Effect.write "DEBUG: No specific match intent detected by LLM."]⟩

/-- ASCII digit test, modelling the digit class of the regex on the inputs
the program exercises. -/
def isAsciiDigit (c : Char) : Bool := '0' ≤ c && c ≤ '9'

/-- Numeric value of a digit list, as Python `int` of the matched group. -/
def natOfDigits (ds : List Char) : Nat :=
  ds.foldl (fun a c => 10 * a + (c.toNat - '0'.toNat)) 0

/-- Does the regex `match (\d+)` match at the head of `cs`?  If so, return
the value of the (greedy, maximal) digit group. -/
def matchPatAt (cs : List Char) : Option Nat :=
  if cs.take 6 = "match ".toList then
    let ds := (cs.drop 6).takeWhile isAsciiDigit
    if ds.isEmpty then none else some (natOfDigits ds)
  else none

/-- `re.search` for `match (\d+)`: first position, scanning left to right,
where the pattern matches. -/
def reSearchAux : List Char → Option Nat
  | [] => none
  | c :: rest =>
    match matchPatAt (c :: rest) with
    | some n => some n
    | none => reSearchAux rest

/-- main.py line 140: the regex search for match-digits over the
lowercased query, yielding the integer of the first occurrence if any. -/
def reSearchMatchDigits (q : String) : Option Nat :=
  reSearchAux (pyLower q).data

/-- Outcome of the structured intent call of main.py lines 120-135:
either the parsed JSON dict, or an exception (`exn`) covering both a failed
call and output that fails to parse as JSON. -/
inductive IntentCallOutcome : Type where
  | ok (d : IntentDict)
  | exn (e : String)
deriving Repr, DecidableEq

/-- main.py `LLM.get_match_intent` (lines 94-146): returns the parsed dict
on success; on any exception it warns and falls back to the regex scan for
`match <digits>` over the lowercased query, returning `{"match_number": n}`
for the first hit and `{}` otherwise. -/
def get_match_intent (outcome : IntentCallOutcome) (user_query : String) :
    IntentDict × List Effect :=
  match outcome with
  | .ok d => (d, [])
  | .exn e =>
    let w := [Effect.warning ("Could not parse match intent from LLM: " ++ e
      ++ ". Falling back to regex.")]
    match reSearchMatchDigits user_query with
    | some n => (⟨some (Int.ofNat n), none⟩, w)
    | none => (⟨none, none⟩, w)

example : reSearchMatchDigits "please reMatch 12 or match 7" = some 12 := by decide
example : reSearchMatchDigits "no digits here" = none := by decide
example : (resolveIntent [⟨some "m1", some "A vs B", none⟩] ⟨some 1, none⟩).selected_match_id
    = some "m1" := by decide

/-- The JSON body of a provider response, reduced to the keys
`_make_api_request` reads: `status`, `reason` and `data`; `α` is the shape
of the `data` payload (a dict for match_info, a list for squads and
currentMatches). -/
structure ApiPayload (α : Type) : Type where
  status : Option String
  reason : Option String
  data : Option α
deriving Repr, DecidableEq

/-- The observable outcome of `requests.get`: either an exception while
performing the request (network failure and friends), or an HTTP response
with a status code and a parsed JSON body. -/
inductive HttpOutcome (α : Type) : Type where
  | netError (e : String)
  | http (code : Nat) (payload : ApiPayload α)
deriving Repr, DecidableEq

/-- `response.raise_for_status()` of the requests library: raises exactly
for 4xx (client error) and 5xx (server error) status codes, mirroring the
comment at main.py line 48; the exception text is abbreviated to its
leading status phrase. -/
def raiseForStatus (code : Nat) : Option String :=
  if 400 ≤ code ∧ code ≤ 499 then some (toString code ++ " Client Error")
  else if 500 ≤ code ∧ code ≤ 599 then some (toString code ++ " Server Error")
  else none

/-- main.py `CricketData._make_api_request` (lines 42-56): on a request
exception or a raised HTTP error it reports `st.error` and returns `None`;
on a body whose `status` is not `"success"` it reports the provider reason
(default `"Unknown error"`) and returns `None`; otherwise it returns
the data field of the payload, with default `dflt`. -/
def makeApiRequest {α : Type} (urlType : String) (dflt : α)
    (out : HttpOutcome α) : Option α × List Effect :=
  match out with
  | .netError e =>
    (none, [Effect.error ("Network or API error for " ++ urlType ++ ": " ++ e)])
  | .http code payload =>
    match raiseForStatus code with
    | some e =>
      (none, [Effect.error ("Network or API error for " ++ urlType ++ ": " ++ e)])
    | none =>
      if payload.status = some "success" then
        (some (payload.data.getD dflt), [])
      else
        (none, [Effect.error ("Cricket API call for " ++ urlType ++ " failed: "
          ++ payload.reason.getD "Unknown error")])

/-- A scalar-or-not value of the match_info dict; `nonScalar` stands for the
list/dict values skipped by the `isinstance` filter at main.py line 275. -/
inductive PyVal : Type where
  | str (s : String)
  | int (n : Int)
  | bool (b : Bool)
  | nonScalar
deriving Repr, DecidableEq

/-- Python f-string rendering of a scalar `PyVal`; `none` for values the
`isinstance` filter rejects. -/
def PyVal.render : PyVal → Option String
  | .str s => some s
  | .int n => some (toString n)
  | .bool b => some (if b then "True" else "False")
  | .nonScalar => none

/-- The match_info payload: its dict items in iteration order. -/
abbrev InfoData := List (String × PyVal)

/-- main.py lines 274-276: one `- key: value` line per scalar item. -/
def infoLines : InfoData → String
  | [] => ""
  | (k, v) :: rest =>
    (match v.render with
     | some r => "- " ++ k ++ ": " ++ r ++ "\n"
     | none => "") ++ infoLines rest

/-- main.py lines 273-277: the detailed-info block for a selected match. -/
def infoBlock (sid : String) (sname : Option String) (info : InfoData) : String :=
  "Detailed Info for Match ID " ++ sid ++ " (" ++ orNA sname ++ "):\n"
    ++ infoLines info ++ "\n"

/-- A player dict of a squad payload, reduced to its `name` key. -/
structure PlayerEntry : Type where
  name : Option String
deriving Repr, DecidableEq

/-- One team dict of the match_squad payload: `name` and `players` keys. -/
structure TeamSquad : Type where
  name : Option String
  players : List PlayerEntry
deriving Repr, DecidableEq

/-- main.py lines 282-284: one indented line per team. -/
def squadLine (t : TeamSquad) : String :=
  "  - " ++ t.name.getD "Unknown Team" ++ ": "
    ++ String.intercalate ", " (t.players.map (fun p => p.name.getD "N/A")) ++ "\n"

/-- main.py lines 280-285: the squad block for a selected match. -/
def squadBlock (squads : List TeamSquad) : String :=
  "Squads:\n" ++ String.join (squads.map squadLine) ++ "\n"

/-- Python truthiness of the fetched match_info value (None or a dict). -/
def truthyOptInfo : Option InfoData → Bool
  | none => false
  | some l => !l.isEmpty

/-- Python truthiness of the fetched match_squad value (None or a list). -/
def truthyOptSquads : Option (List TeamSquad) → Bool
  | none => false
  | some l => !l.isEmpty

/-- main.py line 288: the clarification text stored into
`detailed_match_info_for_llm` when a specific match was asked for but no id
could be selected. -/
def apologyText : String :=
  "I understood you were asking about a specific match, but I couldn\x27t find its details or ID. Please ensure the match number/name is correct and try again."

/-- main.py lines 295-298: one summary line per cached match. -/
def generalLine (m : CMatch) : String :=
  "Match: " ++ m.name.getD "N/A" ++ ", Status: " ++ m.status.getD "N/A"
    ++ ", ID: " ++ m.id.getD "N/A"

/-- main.py lines 292-302: `context_for_llm`, built from the general match
list (when the cache is truthy) and the detail text (when non-empty). -/
def assembleContext (matchData : Option (List CMatch)) (detail : String) : String :=
  let c1 :=
    if truthyMatchData matchData then
      "General Current Match Data:\n"
        ++ String.intercalate "\n" ((matchData.getD []).map generalLine) ++ "\n\n"
    else ""
  if detail = "" then c1 else c1 ++ detail ++ "\n"

/-- main.py lines 304-307: `full_prompt_to_gemini`. -/
def fullPrompt (matchData : Option (List CMatch)) (detail : String)
    (user_input : String) : String :=
  let ctx := assembleContext matchData detail
  if ctx = "" then user_input else ctx ++ "User Query: " ++ user_input

/-- The cursor marker appended after each streamed chunk
(main.py line 319; the literal characters of the source file). -/
def cursorMarker : String := "â–Œ"

/-- main.py lines 315-319: fold over the streamed chunks, skipping falsy
(empty) chunk texts, returning the final accumulated reply and the list of
intermediate `response_area.markdown` renders in order. -/
def streamLoop (acc : String) : List String → String × List String
  | [] => (acc, [])
  | c :: rest =>
    if c = "" then streamLoop acc rest
    else
      let acc2 := acc ++ c
      let r := streamLoop acc2 rest
      (r.1, (acc2 ++ cursorMarker) :: r.2)

/-- Whether the dispatch at main.py line 286 sees a dict with a
`match_number` or `match_name` key (`none` when the intent step never ran,
in which case the cache was falsy and the `and` short-circuits). -/
def intentHasSpecific : Option IntentDict → Bool
  | none => false
  | some mi => mi.match_number.isSome || mi.match_name.isSome

/-- The per-session state of main.py held in `st.session_state`. -/
structure SessionState : Type where
  messages : List Msg
  current_match_data : Option (List CMatch)
  match_list_for_llm : List MatchListEntry
deriving Repr, DecidableEq

/-- The environment of one user turn: the user text plus the outcomes of the
external calls the turn may perform (structured intent call, the two detail
fetches, and the streamed main reply, which may end in an exception). -/
structure TurnInputs : Type where
  user_input : String
  intentOutcome : IntentCallOutcome
  infoOutcome : HttpOutcome InfoData
  squadOutcome : HttpOutcome (List TeamSquad)
  chunks : List String
  streamErr : Option String
deriving Repr, DecidableEq

/-- Everything observable about one executed turn: the intent dict (if the
intent step ran), the resolution outcome, the detail text, the prompt sent
to the model, the ordered renders of the response area, the final reply,
the UI effects, and the rows written to the chat_history store. -/
structure TurnOutputs : Type where
  matchIntent : Option IntentDict
  selected_match_id : Option String
  selected_match_name : Option String
  detail : String
  prompt : String
  renders : List String
  botReply : String
  effects : List Effect
  records : List ChatRecord
deriving Repr, DecidableEq

/-- main.py line 236 plus line 242: the intent step runs only when both the
match cache and the lookup list are truthy; its result is the intent dict
and the effects of `get_match_intent`. -/
def turnIntent (s : SessionState) (inp : TurnInputs) :
    Option (IntentDict × List Effect) :=
  if truthyMatchData s.current_match_data && !s.match_list_for_llm.isEmpty then
    some (get_match_intent inp.intentOutcome inp.user_input)
  else none

/-- The state of `selected_match_id` / `selected_match_name` after
main.py lines 234-264: the intent-resolution result when the intent step
ran, and no selection otherwise. -/
def turnResolve (s : SessionState) (inp : TurnInputs) : ResolveResult :=
  match (turnIntent s inp).map Prod.fst with
  | some mi => resolveIntent (s.current_match_data.getD []) mi
  | none => ⟨none, none, []⟩

/-- main.py lines 215-332: one user turn.  Appends the user message, runs
the intent step when both the match cache and the lookup list are truthy,
resolves a selection, fetches details when an id was selected (or stores the
apology when a specific match was asked for but none selected), assembles
the prompt, streams the reply (or renders the error text), and appends the
assistant message.  No call to backend.save_chat occurs anywhere in the
handler, so the list of persisted chat records is empty. -/
def runTurn (s : SessionState) (inp : TurnInputs) : SessionState × TurnOutputs :=
  let intentRes : Option (IntentDict × List Effect) := turnIntent s inp
  let matchIntent : Option IntentDict := intentRes.map Prod.fst
  let intentEffects : List Effect :=
    match intentRes with
    | some p => p.2
    | none => []
  let res : ResolveResult := turnResolve s inp
  let fetchDetail : String × List Effect :=
    if truthyOptStr res.selected_match_id then
      let info := makeApiRequest "match_info" ([] : InfoData) inp.infoOutcome
      let squad := makeApiRequest "match_squad" ([] : List TeamSquad) inp.squadOutcome
      let d1 :=
        if truthyOptInfo info.1 then
          infoBlock (res.selected_match_id.getD "") res.selected_match_name
            (info.1.getD [])
        else ""
      let d2 := if truthyOptSquads squad.1 then squadBlock (squad.1.getD []) else ""
      (d1 ++ d2, info.2 ++ squad.2)
    else if truthyMatchData s.current_match_data && intentHasSpecific matchIntent then
      (apologyText, [])
    else ("", [])
  let detail := fetchDetail.1
  let prompt := fullPrompt s.current_match_data detail inp.user_input
  let dbgSend := Effect.write ("DEBUG: Sending to LLM (first 200 chars): "
    ++ prompt.take 200 ++ "...")
  let streamed := streamLoop "" inp.chunks
  let ending : String × List String × List Effect :=
    match inp.streamErr with
    | none => (streamed.1, [streamed.1], [])
    | some e =>
      let b := "Error communicating with Gemini or fetching match details: " ++ e
      (b, [b], [Effect.error ("An error occurred: " ++ e)])
  let botReply := ending.1
  let renders := "Thinking..." :: (streamed.2 ++ ending.2.1)
  let effects := intentEffects ++ res.effects ++ fetchDetail.2
    ++ [dbgSend] ++ ending.2.2
  let msgs := s.messages ++ [⟨"user", inp.user_input⟩, ⟨"assistant", botReply⟩]
  (⟨msgs, s.current_match_data, s.match_list_for_llm⟩,
   ⟨matchIntent, res.selected_match_id, res.selected_match_name, detail,
    prompt, renders, botReply, effects, ([] : List ChatRecord)⟩)

/-- main.py line 189: one displayed summary line for the match at 0-based
position `i`. -/
def summaryLine (i : Nat) (m : CMatch) : String :=
  toString (i + 1) ++ ". **" ++ m.name.getD "N/A" ++ "** - " ++ m.status.getD "N/A"

/-- main.py lines 190-194: the lookup entry for the match at 0-based
position `i`. -/
def matchListEntryOf (i : Nat) (m : CMatch) : MatchListEntry :=
  ⟨i + 1, m.name.getD "N/A", m.id.getD "N/A"⟩

/-- The refresh loop of main.py lines 186-194, started at index `i`:
summary lines only for positions below 5, lookup entries for every match. -/
def refreshLoop (i : Nat) : List CMatch → List String × List MatchListEntry
  | [] => ([], [])
  | m :: rest =>
    let r := refreshLoop (i + 1) rest
    ((if i < 5 then [summaryLine i m] else []) ++ r.1,
     matchListEntryOf i m :: r.2)

/-- main.py lines 198-201: the assistant message shown after a successful
refresh. -/
def refreshMessage (formatted : String) : String :=
  "Here are some of the current matches:\n" ++ formatted
    ++ "\n\nI\x27ve stored this information. Now you can ask me for fantasy recommendations based on these matches, or ask about a specific match by its number (e.g., \x27tell me about match 1\x27) or by its name."

/-- main.py lines 178-209: the Fetch Latest Matches handler.  On a truthy
result it replaces the cache and the lookup list and posts the summary
message; otherwise it posts the failure message and leaves the cache
untouched. -/
def refreshMatches (s : SessionState) (outcome : HttpOutcome (List CMatch)) :
    SessionState × List Effect :=
  let r := makeApiRequest "currentMatches" ([] : List CMatch) outcome
  match r.1 with
  | some ms =>
    if ms.isEmpty then
      (⟨s.messages ++ [⟨"assistant", "Could not fetch current matches. Please try again later."⟩],
        s.current_match_data, s.match_list_for_llm⟩, r.2)
    else
      let built := refreshLoop 0 ms
      let formatted := String.intercalate "\n" built.1
      (⟨s.messages ++ [⟨"assistant", refreshMessage formatted⟩],
        some ms, built.2⟩, r.2)
  | none =>
    (⟨s.messages ++ [⟨"assistant", "Could not fetch current matches. Please try again later."⟩],
      s.current_match_data, s.match_list_for_llm⟩, r.2)

/-- Right-fold concatenation of a fragment list (the total text of a
streamed reply). -/
def concatStrings (l : List String) : String :=
  l.foldr (fun a b => a ++ b) ""

/-- Session state of the spec scenario with a single cached match
`"Team A vs Team B"`. -/
def stateOneMatch : SessionState :=
  ⟨[], some [⟨some "m1", some "Team A vs Team B", some "Live"⟩],
   [⟨1, "Team A vs Team B", "m1"⟩]⟩

/-- Turn inputs of the spec scenario: the user says `"match 5"` and the
structured intent call returns `{"match_number": 5}`; neither detail fetch
is reached. -/
def inputMatchFive : TurnInputs :=
  ⟨"match 5", .ok ⟨some 5, none⟩, .netError "unused", .netError "unused",
   ["ok"], none⟩

/-- A turn on an empty session: plain greeting, no cached matches, a
one-chunk streamed reply. -/
def inputPlainHello : TurnInputs :=
  ⟨"hello", .exn "down", .netError "unused", .netError "unused", ["Hi"], none⟩

/-- Cached data where the first case-insensitive name hit lacks an id while
a later entry with the same name carries one. -/
def mdFirstNoId : List CMatch :=
  [⟨none, some "A vs B", some "Live"⟩, ⟨some "m2", some "a VS b", some "Live"⟩]

/-- Session state holding `mdFirstNoId`. -/
def stateFirstNoId : SessionState :=
  ⟨[], some mdFirstNoId, [⟨1, "A vs B", "N/A"⟩, ⟨2, "a VS b", "m2"⟩]⟩

/-- Turn inputs asking for the match by name, resolved by the structured
call to `{"match_name": "a vs b"}`. -/
def inputByNameAB : TurnInputs :=
  ⟨"tell me about A vs B", .ok ⟨none, some "a vs b"⟩, .netError "unused",
   .netError "unused", ["ok"], none⟩

/-- Session state with one cached match that carries an id, so a `ByNumber 1`
intent opens the detail-fetch gate. -/
def stateWithId : SessionState :=
  ⟨[], some [⟨some "m1", some "A vs B", some "Live"⟩], [⟨1, "A vs B", "m1"⟩]⟩

/-- Turn inputs where the match resolves but both detail fetches fail at
the transport level. -/
def inputFetchFails : TurnInputs :=
  ⟨"tell me about match 1", .ok ⟨some 1, none⟩, .netError "conn reset",
   .netError "conn reset", ["ok"], none⟩

/-- Turn inputs whose reply streams in as the fragments
`["Go", "od", " luck"]` of the spec scenario. -/
def inputGoodLuck : TurnInputs :=
  ⟨"wish me luck", .exn "down", .netError "unused", .netError "unused",
   ["Go", "od", " luck"], none⟩

/-- Six fetched matches, one more than the display cut-off of five. -/
def msSix : List CMatch :=
  [⟨some "m1", some "M1 vs N1", some "Live"⟩, ⟨some "m2", some "M2 vs N2", some "Live"⟩,
   ⟨some "m3", some "M3 vs N3", some "Live"⟩, ⟨some "m4", some "M4 vs N4", some "Live"⟩,
   ⟨some "m5", some "M5 vs N5", some "Live"⟩, ⟨some "m6", some "M6 vs N6", some "Live"⟩]

-- ------------------------------------------------------------------
-- Helper lemmas
-- ------------------------------------------------------------------

/-- In-range `ByNumber` resolution selects the fields of the n-th cached
match and logs only the debug line (main.py lines 245-250). -/
theorem resolveIntent_number_inRange (md : List CMatch) (n : Int)
    (h1 : 1 ≤ n) (h2 : n ≤ (md.length : Int)) :
    resolveIntent md ⟨some n, none⟩
      = ⟨(md.getD (n - 1).toNat dfltMatch).id, (md.getD (n - 1).toNat dfltMatch).name,
         [Effect.write ("DEBUG: Identified match by number: "
           ++ pyShowOpt (md.getD (n - 1).toNat dfltMatch).name
           ++ " (ID: " ++ pyShowOpt (md.getD (n - 1).toNat dfltMatch).id ++ ")")]⟩ := by
  have ha : (0 : Int) ≤ n - 1 := by omega
  have hb : n - 1 < (md.length : Int) := by omega
  simp [resolveIntent, ha, hb]

/-- Out-of-range `ByNumber` resolution selects nothing and warns
(main.py lines 251-252). -/
theorem resolveIntent_number_outRange (md : List CMatch) (n : Int)
    (h : ¬(1 ≤ n ∧ n ≤ (md.length : Int))) :
    resolveIntent md ⟨some n, none⟩
      = ⟨none, none,
         [Effect.warning ("Match number " ++ toString n ++ " is out of range.")]⟩ := by
  have hc : ¬((0 : Int) ≤ n - 1 ∧ n - 1 < (md.length : Int)) := by omega
  simp only [resolveIntent]
  rw [if_neg hc]

-- ------------------------------------------------------------------
-- Claims
-- ------------------------------------------------------------------

/-- C6: context assembly is the identity on empty inputs — with a falsy
match cache and empty detail text the prompt equals the raw user query —
and whenever any context exists the prompt equals
`context ++ "User Query: " ++ userQuery`. -/
theorem claim_C6 (matchData : Option (List CMatch)) (detail user_input : String) :
    (truthyMatchData matchData = false → detail = "" →
      fullPrompt matchData detail user_input = user_input)
    ∧ (assembleContext matchData detail ≠ "" →
      fullPrompt matchData detail user_input
        = assembleContext matchData detail ++ "User Query: " ++ user_input) := by
  constructor
  · intro h1 h2
    subst h2
    simp [fullPrompt, assembleContext, h1]
  · intro h
    simp only [fullPrompt]
    rw [if_neg h]

/-- Witness for C6 at concrete inputs: an empty session gives the bare
query, a one-match cache gives the prefixed prompt. -/
theorem claim_C6_witness :
    fullPrompt none "" "hello" = "hello"
    ∧ fullPrompt (some [⟨some "m1", some "A vs B", some "Live"⟩]) "" "hello"
      = assembleContext (some [⟨some "m1", some "A vs B", some "Live"⟩]) ""
        ++ "User Query: " ++ "hello" := by
  refine ⟨(claim_C6 none "" "hello").1 rfl rfl, ?_⟩
  exact (claim_C6 (some [⟨some "m1", some "A vs B", some "Live"⟩]) "" "hello").2
    (by decide)

/-- C1 as stated is false on the code: a completed assistant turn writes no
ChatRecord at all — main.py never imports backend.py nor calls `save_chat`,
so the transcript-store write list of a turn is empty, not a singleton. -/
theorem claim_C1_counterexample :
    ¬ ((runTurn ⟨[], none, []⟩ inputPlainHello).2.records.length = 1) := by
  decide

/-- C1 amended: for every completed assistant turn (finished or errored),
no ChatRecord is written to the transcript store, and the assistant text of
the turn is recorded exactly once, as the assistant entry appended to the
session-scoped message list after the user entry. -/
theorem claim_C1 (s : SessionState) (inp : TurnInputs) :
    (runTurn s inp).2.records = []
    ∧ (runTurn s inp).1.messages
        = s.messages ++ [⟨"user", inp.user_input⟩,
                         ⟨"assistant", (runTurn s inp).2.botReply⟩] := by
  exact ⟨rfl, rfl⟩

/-- C2 as stated is false on the code: in the scenario (one cached match,
intent `ByNumber 5`) the out-of-range warning fires and no match is
selected, but the prompt does not contain only the general match list — the
clarification text is stored into the detail variable and assembled into
the prompt, so the prompt differs from the general-list-only prompt. -/
theorem claim_C2_counterexample :
    Effect.warning "Match number 5 is out of range."
        ∈ (runTurn stateOneMatch inputMatchFive).2.effects
    ∧ truthyOptStr (runTurn stateOneMatch inputMatchFive).2.selected_match_id = false
    ∧ (runTurn stateOneMatch inputMatchFive).2.prompt
        ≠ fullPrompt stateOneMatch.current_match_data "" "match 5" := by
  decide

/-- C2 amended: with cached matches `["Team A vs Team B"]` and intent
`ByNumber 5`, the out-of-range warning is emitted, no match is selected, and
the prompt sent to the model contains the general match list followed by the
apology/clarification text in place of a match-detail block. -/
theorem claim_C2 :
    (runTurn stateOneMatch inputMatchFive).2.selected_match_id = none
    ∧ Effect.warning "Match number 5 is out of range."
        ∈ (runTurn stateOneMatch inputMatchFive).2.effects
    ∧ (runTurn stateOneMatch inputMatchFive).2.detail = apologyText
    ∧ (runTurn stateOneMatch inputMatchFive).2.prompt
        = "General Current Match Data:\nMatch: Team A vs Team B, Status: Live, ID: m1\n\n"
          ++ apologyText ++ "\n" ++ "User Query: " ++ "match 5" := by
  decide

/-- C3 as stated is false on the code: with the cached list
`[{name: "Team A vs Team B"}]` (no id field) and intent `ByNumber 1`, the
index is in range (`1 ≤ 1 ≤ 1`) yet no match id is selected, so the detail
fetch cannot proceed — resolution success needs the selected entry to carry
a truthy id, not just `1 ≤ n ≤ L`. -/
theorem claim_C3_counterexample :
    ((1 : Int) ≤ 1
      ∧ (1 : Int) ≤ (([⟨none, some "Team A vs Team B", some "Live"⟩] : List CMatch).length : Int))
    ∧ truthyOptStr (resolveIntent [⟨none, some "Team A vs Team B", some "Live"⟩]
        ⟨some 1, none⟩).selected_match_id = false := by
  decide

/-- C3 amended: for every cached list of length L and intent `ByNumber n`,
the detail-fetch gate opens iff `1 ≤ n ≤ L` and the n-th entry carries a
non-null, non-empty id; when `1 ≤ n ≤ L` the n-th entry of the cached list
is the one selected; for n outside the range a non-fatal warning is emitted
and no match is selected for the remainder of the turn. -/
theorem claim_C3 (md : List CMatch) (n : Int) :
    (truthyOptStr (resolveIntent md ⟨some n, none⟩).selected_match_id = true
      ↔ 1 ≤ n ∧ n ≤ (md.length : Int)
          ∧ truthyOptStr (md.getD (n - 1).toNat dfltMatch).id = true)
    ∧ (1 ≤ n → n ≤ (md.length : Int) →
        (resolveIntent md ⟨some n, none⟩).selected_match_id
            = (md.getD (n - 1).toNat dfltMatch).id
        ∧ (resolveIntent md ⟨some n, none⟩).selected_match_name
            = (md.getD (n - 1).toNat dfltMatch).name
        ∧ ∀ w, Effect.warning w ∉ (resolveIntent md ⟨some n, none⟩).effects)
    ∧ (¬(1 ≤ n ∧ n ≤ (md.length : Int)) →
        resolveIntent md ⟨some n, none⟩
          = ⟨none, none,
             [Effect.warning ("Match number " ++ toString n ++ " is out of range.")]⟩) := by
  refine ⟨?_, ?_, fun h => resolveIntent_number_outRange md n h⟩
  · by_cases h : 1 ≤ n ∧ n ≤ (md.length : Int)
    · rw [resolveIntent_number_inRange md n h.1 h.2]
      simp [h.1, h.2]
    · rw [resolveIntent_number_outRange md n h]
      simp [truthyOptStr]
      exact fun h1 h2 => absurd ⟨h1, h2⟩ h
  · intro h1 h2
    rw [resolveIntent_number_inRange md n h1 h2]
    simp

/-- Witness for C3 at a length-2 list: `n = 2` selects the second entry and
opens the fetch gate; `n = 3` warns and selects nothing. -/
theorem claim_C3_witness :
    (truthyOptStr (resolveIntent
        [⟨some "m1", some "A vs B", none⟩, ⟨some "m2", some "C vs D", none⟩]
        ⟨some 2, none⟩).selected_match_id = true
      ↔ 1 ≤ (2 : Int) ∧ (2 : Int) ≤ 2
          ∧ truthyOptStr ((([⟨some "m1", some "A vs B", none⟩,
              ⟨some "m2", some "C vs D", none⟩] : List CMatch)).getD
              ((2 : Int) - 1).toNat dfltMatch).id = true)
    ∧ (resolveIntent [⟨some "m1", some "A vs B", none⟩, ⟨some "m2", some "C vs D", none⟩]
        ⟨some 3, none⟩
        = ⟨none, none, [Effect.warning ("Match number " ++ toString (3 : Int)
            ++ " is out of range.")]⟩) := by
  refine ⟨?_, ?_⟩
  · exact (claim_C3 [⟨some "m1", some "A vs B", none⟩, ⟨some "m2", some "C vs D", none⟩]
      2).1
  · exact (claim_C3 [⟨some "m1", some "A vs B", none⟩, ⟨some "m2", some "C vs D", none⟩]
      3).2.2 (by decide)

/-- Characterisation of the name-lookup loop: it returns `some m` exactly
when `m` sits at some position `i`, matches the query case-insensitively,
and no earlier position matches (first hit wins, main.py lines 255-260). -/
theorem findByName_eq_some_iff (s : String) (l : List CMatch) (m : CMatch) :
    findByName s l = some m ↔
      ∃ i, l.get? i = some m ∧ pyLower (m.name.getD "") = pyLower s
        ∧ ∀ j, j < i → ∀ m2, l.get? j = some m2 →
            pyLower (m2.name.getD "") ≠ pyLower s := by
  induction l with
  | nil => simp [findByName]
  | cons a rest ih =>
    by_cases h : pyLower (a.name.getD "") = pyLower s
    · simp only [findByName, if_pos h, Option.some.injEq]
      constructor
      · rintro rfl
        exact ⟨0, by simp, h, fun j hj => absurd hj (Nat.not_lt_zero j)⟩
      · rintro ⟨i, hi, _, hfirst⟩
        cases i with
        | zero => simpa using hi
        | succ k =>
          exact absurd h (hfirst 0 (Nat.succ_pos k) a (by simp))
    · simp only [findByName, if_neg h]
      rw [ih]
      constructor
      · rintro ⟨i, hi, hm, hfirst⟩
        refine ⟨i + 1, by simpa using hi, hm, ?_⟩
        intro j hj m2 hm2
        cases j with
        | zero =>
          simp only [List.get?_cons_zero, Option.some.injEq] at hm2
          subst hm2; exact h
        | succ k =>
          exact hfirst k (by omega) m2 (by simpa using hm2)
      · rintro ⟨i, hi, hm, hfirst⟩
        cases i with
        | zero =>
          simp only [List.get?_cons_zero, Option.some.injEq] at hi
          subst hi; exact absurd hm h
        | succ k =>
          exact ⟨k, by simpa using hi, hm,
            fun j hj m2 hm2 => hfirst (j + 1) (by omega) m2 (by simpa using hm2)⟩

/-- C4 as stated is false on the code: with cached list
`[{name: "Alpha vs Beta"}]` (no id) and intent `ByName "ALPHA vs beta"`,
a cached name does equal the query case-insensitively, yet resolution does
not succeed — no id is selected and the "could not find" warning fires even
though a name matched. -/
theorem claim_C4_counterexample :
    (∃ m ∈ ([⟨none, some "Alpha vs Beta", none⟩] : List CMatch),
      pyLower (m.name.getD "") = pyLower "ALPHA vs beta")
    ∧ truthyOptStr (resolveIntent [⟨none, some "Alpha vs Beta", none⟩]
        ⟨none, some "ALPHA vs beta"⟩).selected_match_id = false
    ∧ Effect.warning "Could not find match with name: ALPHA vs beta."
        ∈ (resolveIntent [⟨none, some "Alpha vs Beta", none⟩]
            ⟨none, some "ALPHA vs beta"⟩).effects := by
  decide

/-- C4 amended: `ByName s` resolution scans for the first cached match whose
name equals `s` case-insensitively; it succeeds (opens the detail-fetch
gate) iff that first hit exists and carries a non-null, non-empty id, in
which case the first hit is the selected match; when no name matches — or
the first hit lacks a truthy id — the "could not find" warning is emitted
and no detail fetch can occur. -/
theorem claim_C4 (md : List CMatch) (s : String) :
    (∀ m, findByName s md = some m → truthyOptStr m.id = true →
      resolveIntent md ⟨none, some s⟩
        = ⟨m.id, m.name, [Effect.write ("DEBUG: Identified match by name: "
            ++ pyShowOpt m.name ++ " (ID: " ++ pyShowOpt m.id ++ ")")]⟩)
    ∧ (∀ m, findByName s md = some m → truthyOptStr m.id = false →
      resolveIntent md ⟨none, some s⟩
        = ⟨m.id, m.name, [Effect.write ("DEBUG: Identified match by name: "
            ++ pyShowOpt m.name ++ " (ID: " ++ pyShowOpt m.id ++ ")"),
           Effect.warning ("Could not find match with name: " ++ s ++ ".")]⟩)
    ∧ (findByName s md = none →
      resolveIntent md ⟨none, some s⟩
        = ⟨none, none,
           [Effect.warning ("Could not find match with name: " ++ s ++ ".")]⟩)
    ∧ (truthyOptStr (resolveIntent md ⟨none, some s⟩).selected_match_id = true
        ↔ ∃ m, findByName s md = some m ∧ truthyOptStr m.id = true) := by
  refine ⟨?_, ?_, ?_, ?_⟩
  · intro m hf hid
    simp [resolveIntent, hf, hid]
  · intro m hf hid
    simp [resolveIntent, hf, hid]
  · intro hf
    simp [resolveIntent, hf]
  · cases hf : findByName s md with
    | none =>
      simp [resolveIntent, hf, truthyOptStr]
    | some m =>
      cases hid : truthyOptStr m.id with
      | false => simp [resolveIntent, hf, hid]
      | true => simp [resolveIntent, hf, hid]

/-- Witness for C4: a single cached match with a truthy id is selected when
its name matches case-insensitively. -/
theorem claim_C4_witness :
    resolveIntent [⟨some "m1", some "A vs B", none⟩] ⟨none, some "a VS b"⟩
      = ⟨some "m1", some "A vs B", [Effect.write ("DEBUG: Identified match by name: "
          ++ pyShowOpt (some "A vs B") ++ " (ID: " ++ pyShowOpt (some "m1") ++ ")")]⟩ := by
  exact (claim_C4 [⟨some "m1", some "A vs B", none⟩] "a VS b").1
    ⟨some "m1", some "A vs B", none⟩ (by decide) (by decide)

/-- C10: when a `ByName` intent matches a cached match case-insensitively
but that first hit has no id, the scan still stops at it (its name is the
one reported), no match id is selected, the "could not find" warning is
emitted, no detail fetch occurs, and the turn proceeds with the
apology/clarification text as the detail section of the prompt. -/
theorem claim_C10 (s : SessionState) (inp : TurnInputs) (md : List CMatch)
    (nm : String) (m : CMatch) :
    s.current_match_data = some md → md ≠ [] →
    s.match_list_for_llm ≠ [] →
    inp.intentOutcome = .ok ⟨none, some nm⟩ →
    findByName nm md = some m → m.id = none →
      (runTurn s inp).2.selected_match_id = none
      ∧ (runTurn s inp).2.selected_match_name = m.name
      ∧ Effect.warning ("Could not find match with name: " ++ nm ++ ".")
          ∈ (runTurn s inp).2.effects
      ∧ (runTurn s inp).2.detail = apologyText
      ∧ (runTurn s inp).2.prompt = fullPrompt (some md) apologyText inp.user_input := by
  intro hmd hne hml hio hf hid
  have h1 : md.isEmpty = false := by
    cases md with
    | nil => exact absurd rfl hne
    | cons a l => rfl
  have h2 : s.match_list_for_llm.isEmpty = false := by
    cases hl : s.match_list_for_llm with
    | nil => exact absurd hl hml
    | cons a l => rfl
  simp [runTurn, turnIntent, turnResolve, hmd, hio, h1, h2, truthyMatchData,
    get_match_intent, resolveIntent, hf, hid, truthyOptStr, intentHasSpecific]

/-- Witness for C10: two cached entries share the name; the first lacks an
id, so the scan stops there, nothing is selected, and the apology text
becomes the detail section. -/
theorem claim_C10_witness :
    (runTurn stateFirstNoId inputByNameAB).2.selected_match_id = none
    ∧ (runTurn stateFirstNoId inputByNameAB).2.selected_match_name = some "A vs B"
    ∧ Effect.warning ("Could not find match with name: " ++ "a vs b" ++ ".")
        ∈ (runTurn stateFirstNoId inputByNameAB).2.effects
    ∧ (runTurn stateFirstNoId inputByNameAB).2.detail = apologyText
    ∧ (runTurn stateFirstNoId inputByNameAB).2.prompt
        = fullPrompt (some mdFirstNoId) apologyText "tell me about A vs B" := by
  have h := claim_C10 stateFirstNoId inputByNameAB mdFirstNoId "a vs b"
    ⟨none, some "A vs B", some "Live"⟩ rfl (by decide) (by decide) rfl
    (by decide) rfl
  exact h

/-- Characterisation of the regex scan: `re.search` yields `some v` exactly
when the pattern `match (\d+)` matches at some position with group value
`v` and at no earlier position. -/
theorem reSearchAux_eq_some_iff (cs : List Char) (v : Nat) :
    reSearchAux cs = some v ↔
      ∃ i, matchPatAt (cs.drop i) = some v
        ∧ ∀ j, j < i → matchPatAt (cs.drop j) = none := by
  induction cs with
  | nil =>
    have h0 : matchPatAt ([] : List Char) = none := by decide
    simp [reSearchAux, List.drop_nil, h0]
  | cons c rest ih =>
    cases hm : matchPatAt (c :: rest) with
    | some w =>
      simp only [reSearchAux, hm, Option.some.injEq]
      constructor
      · rintro rfl
        exact ⟨0, by simpa using hm, fun j hj => absurd hj (Nat.not_lt_zero j)⟩
      · rintro ⟨i, hi, hfirst⟩
        cases i with
        | zero =>
          rw [List.drop_zero, hm] at hi
          injection hi with h
        | succ k =>
          have := hfirst 0 (Nat.succ_pos k)
          rw [List.drop_zero, hm] at this
          exact absurd this (by simp)
    | none =>
      simp only [reSearchAux, hm]
      rw [ih]
      constructor
      · rintro ⟨i, hi, hfirst⟩
        refine ⟨i + 1, by simpa using hi, ?_⟩
        intro j hj
        cases j with
        | zero => simpa using hm
        | succ k => simpa using hfirst k (by omega)
      · rintro ⟨i, hi, hfirst⟩
        cases i with
        | zero =>
          rw [List.drop_zero, hm] at hi
          exact absurd hi (by simp)
        | succ k =>
          exact ⟨k, by simpa using hi,
            fun j hj => by simpa using hfirst (j + 1) (by omega)⟩

/-- Dual characterisation: the scan yields nothing exactly when no position
matches. -/
theorem reSearchAux_eq_none_iff (cs : List Char) :
    reSearchAux cs = none ↔ ∀ i, matchPatAt (cs.drop i) = none := by
  induction cs with
  | nil =>
    have h0 : matchPatAt ([] : List Char) = none := by decide
    simp [reSearchAux, List.drop_nil, h0]
  | cons c rest ih =>
    cases hm : matchPatAt (c :: rest) with
    | some w =>
      simp only [reSearchAux, hm]
      refine iff_of_false (by simp) ?_
      intro hall
      have := hall 0
      rw [List.drop_zero, hm] at this
      exact absurd this (by simp)
    | none =>
      simp only [reSearchAux, hm]
      rw [ih]
      constructor
      · intro hall i
        cases i with
        | zero => simpa using hm
        | succ k => simpa using hall k
      · intro hall i
        simpa using hall (i + 1)

/-- C5: when the structured intent call fails to execute or its output
fails to parse, the resolver emits a non-fatal warning and falls back to
the regex scan: the result never carries a name, it carries `ByNumber v`
exactly when the lowercased query matches `match <digits>` first at some
position with value `v`, and it is the empty intent exactly when no
position matches. -/
theorem claim_C5 (q e : String) :
    ((get_match_intent (.exn e) q).1.match_name = none)
    ∧ (∀ v : Nat, (get_match_intent (.exn e) q).1.match_number = some (Int.ofNat v)
        ↔ ∃ i, matchPatAt ((pyLower q).data.drop i) = some v
            ∧ ∀ j, j < i → matchPatAt ((pyLower q).data.drop j) = none)
    ∧ ((get_match_intent (.exn e) q).1.match_number = none
        ↔ ∀ i, matchPatAt ((pyLower q).data.drop i) = none)
    ∧ Effect.warning ("Could not parse match intent from LLM: " ++ e
        ++ ". Falling back to regex.") ∈ (get_match_intent (.exn e) q).2 := by
  cases hr : reSearchMatchDigits q with
  | some n =>
    have hr' : reSearchAux ((pyLower q).data) = some n := hr
    have hs := (reSearchAux_eq_some_iff ((pyLower q).data) n).mp hr'
    refine ⟨by simp [get_match_intent, hr], ?_, ?_, by simp [get_match_intent, hr]⟩
    · intro v
      simp only [get_match_intent, hr]
      constructor
      · intro h
        have hnv : n = v := by simpa using h
        subst hnv
        exact hs
      · intro hv
        have h2 : reSearchAux ((pyLower q).data) = some v :=
          (reSearchAux_eq_some_iff ((pyLower q).data) v).mpr hv
        have hnv : n = v := by rw [hr'] at h2; simpa using h2
        subst hnv
        simp
    · simp only [get_match_intent, hr]
      refine iff_of_false (by simp) ?_
      intro hall
      obtain ⟨i, hi, -⟩ := hs
      rw [hall i] at hi
      exact absurd hi (by simp)
  | none =>
    have hr' : reSearchAux ((pyLower q).data) = none := hr
    have hs := (reSearchAux_eq_none_iff ((pyLower q).data)).mp hr'
    refine ⟨by simp [get_match_intent, hr], ?_, ?_, by simp [get_match_intent, hr]⟩
    · intro v
      simp only [get_match_intent, hr]
      refine iff_of_false (by simp) ?_
      rintro ⟨i, hi, -⟩
      rw [hs i] at hi
      exact absurd hi (by simp)
    · simp only [get_match_intent, hr]
      exact iff_of_true (by simp) hs

/-- Witness for C5: with a failing structured call and the query
`"Match 12 then match 7"`, the fallback returns `ByNumber 12` — the first
hit, case-insensitively — and no name. -/
theorem claim_C5_witness :
    (get_match_intent (.exn "boom") "Match 12 then match 7").1.match_number
      = some (Int.ofNat 12)
    ∧ (get_match_intent (.exn "boom") "Match 12 then match 7").1.match_name = none := by
  refine ⟨?_, (claim_C5 "Match 12 then match 7" "boom").1⟩
  exact ((claim_C5 "Match 12 then match 7" "boom").2.1 12).mpr
    ⟨0, by decide, fun j hj => absurd hj (Nat.not_lt_zero j)⟩

/-- C7 as stated is false on the code: a 300 response — non-2xx — with a
`success` payload is not turned into a Failure; `raise_for_status` raises
only for 4xx and 5xx codes (main.py line 48), so the data is returned and
no error is reported. -/
theorem claim_C7_counterexample :
    ¬ (200 ≤ 300 ∧ 300 ≤ 299)
    ∧ makeApiRequest "currentMatches" ([] : List CMatch)
        (HttpOutcome.http 300
          ⟨some "success", none, some [⟨some "m1", some "A vs B", some "Live"⟩]⟩)
      = (some [⟨some "m1", some "A vs B", some "Live"⟩], []) := by
  decide

/-- C7 amended: a request exception is a Failure carrying the transport
error; a 4xx/5xx response (the codes `raise_for_status` raises for) is a
Failure carrying the HTTP error; a 2xx response whose payload status is not
"success" is a Failure carrying the provider reason (default "Unknown
error"); a 2xx success returns the data; and when both detail fetches of a
turn fail after a successful resolution, the detail section is empty, the
prompt degrades to the general context alone, and the turn still completes
with its assistant message appended. -/
theorem claim_C7 {α : Type} (urlType : String) (dflt : α) (e : String)
    (code : Nat) (payload : ApiPayload α) (s : SessionState) (inp : TurnInputs) :
    (makeApiRequest urlType dflt (HttpOutcome.netError e)
        = (none, [Effect.error ("Network or API error for " ++ urlType ++ ": " ++ e)]))
    ∧ (400 ≤ code → code ≤ 599 →
        makeApiRequest urlType dflt (HttpOutcome.http code payload)
          = (none, [Effect.error ("Network or API error for " ++ urlType ++ ": "
              ++ (raiseForStatus code).getD "")]))
    ∧ (200 ≤ code → code ≤ 299 → payload.status ≠ some "success" →
        makeApiRequest urlType dflt (HttpOutcome.http code payload)
          = (none, [Effect.error ("Cricket API call for " ++ urlType ++ " failed: "
              ++ payload.reason.getD "Unknown error")]))
    ∧ (200 ≤ code → code ≤ 299 → payload.status = some "success" →
        makeApiRequest urlType dflt (HttpOutcome.http code payload)
          = (some (payload.data.getD dflt), []))
    ∧ ((makeApiRequest "match_info" ([] : InfoData) inp.infoOutcome).1 = none →
       (makeApiRequest "match_squad" ([] : List TeamSquad) inp.squadOutcome).1 = none →
       truthyOptStr (runTurn s inp).2.selected_match_id = true →
         (runTurn s inp).2.detail = ""
         ∧ (runTurn s inp).2.prompt = fullPrompt s.current_match_data "" inp.user_input
         ∧ (runTurn s inp).1.messages
             = s.messages ++ [⟨"user", inp.user_input⟩,
                              ⟨"assistant", (runTurn s inp).2.botReply⟩]) := by
  refine ⟨rfl, ?_, ?_, ?_, ?_⟩
  · intro h4 h5
    by_cases hc : 400 ≤ code ∧ code ≤ 499
    · simp [makeApiRequest, raiseForStatus, hc]
    · have hc2 : 500 ≤ code ∧ code ≤ 599 := by omega
      simp [makeApiRequest, raiseForStatus, hc, hc2.1, hc2.2]
  · intro h2l h2h hst
    have hr : raiseForStatus code = none := by
      rw [raiseForStatus, if_neg (by omega), if_neg (by omega)]
    simp [makeApiRequest, hr, hst]
  · intro h2l h2h hst
    have hr : raiseForStatus code = none := by
      rw [raiseForStatus, if_neg (by omega), if_neg (by omega)]
    simp [makeApiRequest, hr, hst]
  · intro hinfo hsquad hsel
    have hsel' : truthyOptStr (turnResolve s inp).selected_match_id = true := hsel
    refine ⟨?_, ?_, rfl⟩
    · simp only [runTurn]
      simp [hsel', hinfo, hsquad, truthyOptInfo, truthyOptSquads]
    · simp only [runTurn]
      simp [hsel', hinfo, hsquad, truthyOptInfo, truthyOptSquads]

/-- Witness for C7: transport failure, a 404, a 2xx with an error payload,
a 2xx success, and a full turn in which both detail fetches fail after a
`ByNumber 1` resolution yet the prompt still carries the general list. -/
theorem claim_C7_witness :
    (makeApiRequest "match_info" ([] : InfoData) (HttpOutcome.netError "boom")
        = (none, [Effect.error "Network or API error for match_info: boom"]))
    ∧ (makeApiRequest "match_info" ([] : InfoData)
        (HttpOutcome.http 404 ⟨some "success", none, none⟩)
        = (none, [Effect.error ("Network or API error for match_info: "
            ++ (raiseForStatus 404).getD "")]))
    ∧ (makeApiRequest "match_info" ([] : InfoData)
        (HttpOutcome.http 200 ⟨some "failure", some "quota exceeded", none⟩)
        = (none, [Effect.error "Cricket API call for match_info failed: quota exceeded"]))
    ∧ (makeApiRequest "match_info" ([] : InfoData)
        (HttpOutcome.http 200 ⟨some "success", none, some [("venue", PyVal.str "Lord\x27s")]⟩)
        = (some [("venue", PyVal.str "Lord\x27s")], []))
    ∧ ((runTurn stateWithId inputFetchFails).2.detail = ""
        ∧ (runTurn stateWithId inputFetchFails).2.prompt
            = fullPrompt stateWithId.current_match_data "" "tell me about match 1"
        ∧ (runTurn stateWithId inputFetchFails).1.messages
            = stateWithId.messages
              ++ [⟨"user", "tell me about match 1"⟩,
                  ⟨"assistant", (runTurn stateWithId inputFetchFails).2.botReply⟩]) := by
  have h1 := (claim_C7 (α := InfoData) "match_info" [] "boom" 404
    ⟨some "success", none, none⟩ stateWithId inputFetchFails).1
  have h2 := (claim_C7 (α := InfoData) "match_info" [] "boom" 404
    ⟨some "success", none, none⟩ stateWithId inputFetchFails).2.1
    (by decide) (by decide)
  have h3 := (claim_C7 (α := InfoData) "match_info" [] "boom" 200
    ⟨some "failure", some "quota exceeded", none⟩ stateWithId inputFetchFails).2.2.1
    (by decide) (by decide) (by decide)
  have h4 := (claim_C7 (α := InfoData) "match_info" [] "boom" 200
    ⟨some "success", none, some [("venue", PyVal.str "Lord\x27s")]⟩
    stateWithId inputFetchFails).2.2.2.1 (by decide) (by decide) rfl
  have h5 := (claim_C7 (α := InfoData) "match_info" [] "boom" 200
    ⟨some "success", none, none⟩ stateWithId inputFetchFails).2.2.2.2
    (by decide) (by decide) (by decide)
  exact ⟨h1, h2, by simpa using h3, by simpa using h4, h5⟩

/-- The streaming fold renders, for every non-empty fragment, the prefix
accumulated so far followed by the cursor marker, and returns the full
accumulated text. -/
theorem streamLoop_spec (cs : List String) (acc : String)
    (h : ∀ c ∈ cs, c ≠ "") :
    streamLoop acc cs
      = (acc ++ concatStrings cs,
         (List.range cs.length).map
           (fun i => acc ++ concatStrings (cs.take (i + 1)) ++ cursorMarker)) := by
  induction cs generalizing acc with
  | nil => simp [streamLoop, concatStrings]
  | cons c rest ih =>
    have hc : c ≠ "" := h c (by simp)
    have hrest : ∀ x ∈ rest, x ≠ "" := fun x hx => h x (by simp [hx])
    simp only [streamLoop, if_neg hc]
    rw [ih (acc ++ c) hrest]
    simp [List.range_succ_eq_map, List.map_map, Function.comp,
      concatStrings, String.append_assoc]

/-- C8: for a reply streamed as non-empty fragments, the response area
shows "Thinking...", then after each fragment the concatenation of the
fragments so far with the transient cursor marker, then the full text with
the marker removed; the reply recorded for the turn — and appended as the
assistant message — is the concatenation of all fragments. -/
theorem claim_C8 (s : SessionState) (inp : TurnInputs) :
    inp.streamErr = none → (∀ c ∈ inp.chunks, c ≠ "") →
      (runTurn s inp).2.botReply = concatStrings inp.chunks
      ∧ (runTurn s inp).2.renders
          = "Thinking..."
            :: ((List.range inp.chunks.length).map
                  (fun i => concatStrings (inp.chunks.take (i + 1)) ++ cursorMarker)
                ++ [concatStrings inp.chunks])
      ∧ (runTurn s inp).1.messages
          = s.messages ++ [⟨"user", inp.user_input⟩,
                           ⟨"assistant", concatStrings inp.chunks⟩] := by
  intro herr hne
  have hs := streamLoop_spec inp.chunks "" hne
  refine ⟨?_, ?_, ?_⟩ <;> simp [runTurn, herr, hs]

/-- Witness for C8 on the spec scenario: fragments `["Go", "od", " luck"]`
display "Go", "Good", "Good luck" in order (cursor-marked), then
"Good luck" bare, and record "Good luck". -/
theorem claim_C8_witness :
    (runTurn ⟨[], none, []⟩ inputGoodLuck).2.botReply = "Good luck"
    ∧ (runTurn ⟨[], none, []⟩ inputGoodLuck).2.renders
        = ["Thinking...", "Go" ++ cursorMarker, "Good" ++ cursorMarker,
           "Good luck" ++ cursorMarker, "Good luck"] := by
  have h := claim_C8 ⟨[], none, []⟩ inputGoodLuck rfl (by decide)
  refine ⟨?_, ?_⟩
  · rw [h.1]; decide
  · rw [h.2.1]; decide

/-- Number of summary lines produced by the refresh loop started at `i`:
one per remaining match until overall position 5 is reached. -/
theorem refreshLoop_fst_len (ms : List CMatch) (i : Nat) :
    (refreshLoop i ms).1.length = min ms.length (5 - i) := by
  induction ms generalizing i with
  | nil => simp [refreshLoop]
  | cons m rest ih =>
    simp only [refreshLoop]
    by_cases hi : i < 5
    · simp only [if_pos hi, List.singleton_append, List.length_cons]
      rw [ih (i + 1)]
      omega
    · simp only [if_neg hi, List.nil_append]
      rw [ih (i + 1)]
      omega

/-- Summary line at position `j` of the refresh loop started at `i`. -/
theorem refreshLoop_fst_get (ms : List CMatch) (i j : Nat)
    (h1 : j < ms.length) (h2 : i + j < 5) :
    (refreshLoop i ms).1.get? j = some (summaryLine (i + j) (ms.getD j dfltMatch)) := by
  induction ms generalizing i j with
  | nil => simp at h1
  | cons m rest ih =>
    have hi : i < 5 := by omega
    cases j with
    | zero => simp [refreshLoop, hi]
    | succ k =>
      simp only [refreshLoop, if_pos hi, List.singleton_append, List.get?_cons_succ,
        List.getD_cons_succ]
      have hk1 : k < rest.length := by simpa using h1
      have hk2 : (i + 1) + k < 5 := by omega
      have harith : i + (k + 1) = (i + 1) + k := by omega
      rw [harith]
      exact ih (i + 1) k hk1 hk2

/-- The lookup list built by the refresh loop keeps one entry per match. -/
theorem refreshLoop_snd_len (ms : List CMatch) (i : Nat) :
    (refreshLoop i ms).2.length = ms.length := by
  induction ms generalizing i with
  | nil => simp [refreshLoop]
  | cons m rest ih => simp [refreshLoop, ih (i + 1)]

/-- Lookup entry at position `j` of the refresh loop started at `i`. -/
theorem refreshLoop_snd_get (ms : List CMatch) (i j : Nat) (h : j < ms.length) :
    (refreshLoop i ms).2.get? j
      = some (matchListEntryOf (i + j) (ms.getD j dfltMatch)) := by
  induction ms generalizing i j with
  | nil => simp at h
  | cons m rest ih =>
    cases j with
    | zero => simp [refreshLoop]
    | succ k =>
      simp only [refreshLoop, List.get?_cons_succ, List.getD_cons_succ]
      have hk : k < rest.length := by simpa using h
      have harith : i + (k + 1) = (i + 1) + k := by omega
      rw [harith]
      exact ih (i + 1) k hk

/-- C9: a refresh that fetches L matches displays summary lines for only
the first `min L 5` matches, while the stored lookup list keeps all L
entries with 1-based indices aligned to the cached data; consequently a
`ByNumber n` intent resolves to the n-th cached match for every
`1 ≤ n ≤ L`, including `n > 5`. -/
theorem claim_C9 (s : SessionState) (ms : List CMatch) :
    ((refreshLoop 0 ms).1.length = min ms.length 5)
    ∧ (∀ j, j < min ms.length 5 →
        (refreshLoop 0 ms).1.get? j = some (summaryLine j (ms.getD j dfltMatch)))
    ∧ ((refreshLoop 0 ms).2.length = ms.length)
    ∧ (∀ j, j < ms.length →
        (refreshLoop 0 ms).2.get? j = some (matchListEntryOf j (ms.getD j dfltMatch)))
    ∧ (ms ≠ [] →
        (refreshMatches s (HttpOutcome.http 200 ⟨some "success", none, some ms⟩)).1
          = ⟨s.messages ++ [⟨"assistant",
               refreshMessage (String.intercalate "\n" (refreshLoop 0 ms).1)⟩],
             some ms, (refreshLoop 0 ms).2⟩)
    ∧ (∀ n : Int, 1 ≤ n → n ≤ (ms.length : Int) →
        resolveIntent ms ⟨some n, none⟩
          = ⟨(ms.getD (n - 1).toNat dfltMatch).id,
             (ms.getD (n - 1).toNat dfltMatch).name,
             [Effect.write ("DEBUG: Identified match by number: "
               ++ pyShowOpt (ms.getD (n - 1).toNat dfltMatch).name
               ++ " (ID: " ++ pyShowOpt (ms.getD (n - 1).toNat dfltMatch).id ++ ")")]⟩) := by
  refine ⟨by simpa using refreshLoop_fst_len ms 0, ?_, refreshLoop_snd_len ms 0,
    ?_, ?_, fun n h1 h2 => resolveIntent_number_inRange ms n h1 h2⟩
  · intro j hj
    have h1 : j < ms.length := by omega
    have h2 : 0 + j < 5 := by omega
    simpa using refreshLoop_fst_get ms 0 j h1 h2
  · intro j hj
    simpa using refreshLoop_snd_get ms 0 j hj
  · intro hne
    have h1 : ms.isEmpty = false := by
      cases ms with
      | nil => exact absurd rfl hne
      | cons a l => rfl
    have hr : raiseForStatus 200 = none := by decide
    simp [refreshMatches, makeApiRequest, hr, h1]

/-- Witness for C9 on six matches: only five summary lines are shown, the
sixth lookup entry exists with index 6, and `ByNumber 6` resolves to the
sixth match. -/
theorem claim_C9_witness :
    (refreshLoop 0 msSix).1.length = min msSix.length 5
    ∧ (refreshLoop 0 msSix).2.get? 5 = some (matchListEntryOf 5 (msSix.getD 5 dfltMatch))
    ∧ resolveIntent msSix ⟨some 6, none⟩
        = ⟨(msSix.getD ((6 : Int) - 1).toNat dfltMatch).id,
           (msSix.getD ((6 : Int) - 1).toNat dfltMatch).name,
           [Effect.write ("DEBUG: Identified match by number: "
             ++ pyShowOpt (msSix.getD ((6 : Int) - 1).toNat dfltMatch).name
             ++ " (ID: " ++ pyShowOpt (msSix.getD ((6 : Int) - 1).toNat dfltMatch).id
             ++ ")")]⟩ := by
  have h := claim_C9 ⟨[], none, []⟩ msSix
  exact ⟨h.1, h.2.2.2.1 5 (by decide), h.2.2.2.2.2 6 (by decide) (by decide)⟩

end CricketBot
